import Mathlib

/-!
Verification of the `Preview` PDF viewer's navigation/zoom core against its
specification.

The development shallowly embeds `src/Preview/core.py` (class `PDFViewerCore`)
and `src/Preview/widget.py` (class `PDFContentWidget`).  Python's unbounded
`int` is modelled by `Int`/`Nat`; Python `float` arithmetic is modelled
exactly over `ℚ` (the literals involved -- 0.05, 0.1, 0.5, 1.0, 1.1, 3.0 --
are taken at their decimal value).  External collaborators (the `fitz`
document decoder and the Qt rendering pipeline) are modelled by their
outcomes, passed in as parameters.
-/

namespace Preview

/-- The mutable fields of `PDFViewerCore` (`core.py`, `__init__`).
`pdf_document` is `true` when a document handle is held (`self.pdf_document`
is not `None`). -/
structure PDFViewerCore where
  pdf_document : Bool
  current_pdf_path : Option String
  current_page_num : Int
  total_pages : Int
  zoom_level : ℚ
  scroll_position : Int
  page_height : Int
  scroll_threshold : Int
deriving Repr, DecidableEq

/-- The constructor `PDFViewerCore.__init__`: no document, page 0 of 0,
zoom 1.0, scroll 0, scroll threshold 100. -/
def PDFViewerCore.init : PDFViewerCore :=
  { pdf_document := false
    current_pdf_path := none
    current_page_num := 0
    total_pages := 0
    zoom_level := 1
    scroll_position := 0
    page_height := 0
    scroll_threshold := 100 }

/-- `reset_pdf_state` (`core.py` lines 102-110): clears every PDF-related
field (the scroll threshold constant is not touched). -/
def PDFViewerCore.reset_pdf_state (s : PDFViewerCore) : PDFViewerCore :=
  { s with
    pdf_document := false
    current_pdf_path := none
    current_page_num := 0
    total_pages := 0
    zoom_level := 1
    scroll_position := 0
    page_height := 0 }

/-- `load_pdf` (`core.py` lines 25-36).  The external `fitz.open(file_path)`
call is modelled by its outcome `openResult`: `some n` when the file opens
as a document with `n` pages (`n = len(self.pdf_document)`), `none` when it
raises.  On success the document is installed, `current_page_num` becomes 1
and `scroll_position` 0, with `zoom_level` untouched; on failure the state is
fully reset and an error message returned. -/
def PDFViewerCore.load_pdf (s : PDFViewerCore) (file_path : String)
    (openResult : Option Nat) : (Bool × String) × PDFViewerCore :=
  match openResult with
  | some n =>
      ((true, "Successfully loaded: " ++ file_path),
       { s with
         pdf_document := true
         current_pdf_path := some file_path
         total_pages := (n : Int)
         current_page_num := 1
         scroll_position := 0 })
  | none =>
      ((false, "Could not load PDF"), s.reset_pdf_state)

/-- `go_to_page` (`core.py` lines 55-64).  The result pairs the success flag
with the optional error message the Python code returns. -/
def PDFViewerCore.go_to_page (s : PDFViewerCore) (page_num : Int) :
    (Bool × Option String) × PDFViewerCore :=
  if s.pdf_document ∧ 0 < s.total_pages then
    if 1 ≤ page_num ∧ page_num ≤ s.total_pages then
      ((true, none), { s with current_page_num := page_num, scroll_position := 0 })
    else
      ((false, some ("Page number must be between 1 and " ++ toString s.total_pages ++ ".")), s)
  else
    ((false, some "No PDF document loaded."), s)

/-- `next_page` (`core.py` lines 66-72). -/
def PDFViewerCore.next_page (s : PDFViewerCore) : (Bool × Option String) × PDFViewerCore :=
  if s.pdf_document ∧ s.current_page_num < s.total_pages then
    s.go_to_page (s.current_page_num + 1)
  else if s.pdf_document then
    ((false, some "You are already on the last page."), s)
  else
    ((false, some "No PDF document loaded."), s)

/-- `prev_page` (`core.py` lines 74-80). -/
def PDFViewerCore.prev_page (s : PDFViewerCore) : (Bool × Option String) × PDFViewerCore :=
  if s.pdf_document ∧ 1 < s.current_page_num then
    s.go_to_page (s.current_page_num - 1)
  else if s.pdf_document then
    ((false, some "You are already on the first page."), s)
  else
    ((false, some "No PDF document loaded."), s)

/-- `zoom_in` (`core.py` lines 82-85): `zoom_level = min(zoom_level + factor, 3.0)`.
The Python default argument is `factor=0.1`; call sites in the repository use
the default. -/
def PDFViewerCore.zoom_in (s : PDFViewerCore) (factor : ℚ) : Bool × PDFViewerCore :=
  (true, { s with zoom_level := min (s.zoom_level + factor) 3 })

/-- `zoom_out` (`core.py` lines 87-90): `zoom_level = max(zoom_level - factor, 0.5)`. -/
def PDFViewerCore.zoom_out (s : PDFViewerCore) (factor : ℚ) : Bool × PDFViewerCore :=
  (true, { s with zoom_level := max (s.zoom_level - factor) (1/2) })

/-- `zoom_in_by_factor` (`core.py` lines 92-95):
`zoom_level = min(zoom_level * factor, 3.0)` -- note there is no lower bound
applied. -/
def PDFViewerCore.zoom_in_by_factor (s : PDFViewerCore) (factor : ℚ) : Bool × PDFViewerCore :=
  (true, { s with zoom_level := min (s.zoom_level * factor) 3 })

/-- `zoom_out_by_factor` (`core.py` lines 97-100):
`zoom_level = max(zoom_level / factor, 0.5)` -- note there is no upper bound
applied. -/
def PDFViewerCore.zoom_out_by_factor (s : PDFViewerCore) (factor : ℚ) : Bool × PDFViewerCore :=
  (true, { s with zoom_level := max (s.zoom_level / factor) (1/2) })

/-- The pixmap returned by the external Qt/fitz rendering pipeline; only its
height is read back into the core state. -/
structure Pixmap where
  width : Int
  height : Int
deriving Repr, DecidableEq

/-- `get_page_pixmap` (`core.py` lines 38-53).  The external rendering chain
(`load_page`, `get_pixmap`, `QImage`, `QPixmap`) is modelled by `render`,
mapping the 0-based page index and the zoom level to the resulting pixmap.
A `page_num` of `none` models the Python default argument (render the
current page). -/
def PDFViewerCore.get_page_pixmap (s : PDFViewerCore) (render : Int → ℚ → Pixmap)
    (page_num : Option Int) : Option Pixmap × PDFViewerCore :=
  if s.pdf_document = false then
    (none, s)
  else
    let p := page_num.getD s.current_page_num
    if 0 ≤ p - 1 ∧ p - 1 < s.total_pages then
      let pix := render (p - 1) s.zoom_level
      (some pix, { s with page_height := pix.height })
    else
      (none, s)

/-- `get_document_info` (`core.py` lines 112-120), as a record of the fields
the dictionary exposes. -/
structure DocumentInfo where
  current_page : Int
  total_pages : Int
  zoom_level : ℚ
  file_path : Option String
  has_document : Bool
deriving Repr, DecidableEq

def PDFViewerCore.get_document_info (s : PDFViewerCore) : DocumentInfo :=
  { current_page := s.current_page_num
    total_pages := s.total_pages
    zoom_level := s.zoom_level
    file_path := s.current_pdf_path
    has_document := s.pdf_document }

/-- The operations of the navigation state machine, with the arguments they
take.  `loadOk path n` is a `load_pdf` call whose external open succeeds with
an `n`-page document; `loadFail` one whose open raises.  `zoomIn`/`zoomOut`
carry no argument: every call site in the repository uses the Python default
`factor=0.1`. -/
inductive Op where
  | loadOk (path : String) (n : Nat)
  | loadFail (path : String)
  | goToPage (n : Int)
  | nextPage
  | prevPage
  | zoomIn
  | zoomOut
  | zoomInByFactor (f : ℚ)
  | zoomOutByFactor (f : ℚ)
  | reset
deriving Repr, DecidableEq

/-- State effect of one operation (the returned flags/messages are dropped). -/
def run (s : PDFViewerCore) : Op → PDFViewerCore
  | .loadOk path n => (s.load_pdf path (some n)).2
  | .loadFail path => (s.load_pdf path none).2
  | .goToPage n => (s.go_to_page n).2
  | .nextPage => s.next_page.2
  | .prevPage => s.prev_page.2
  | .zoomIn => (s.zoom_in (1/10)).2
  | .zoomOut => (s.zoom_out (1/10)).2
  | .zoomInByFactor f => (s.zoom_in_by_factor f).2
  | .zoomOutByFactor f => (s.zoom_out_by_factor f).2
  | .reset => s.reset_pdf_state

/-- Run a sequence of operations from a starting state. -/
def runAll (s : PDFViewerCore) (ops : List Op) : PDFViewerCore :=
  ops.foldl run s

/-- The session invariant claimed by the spec: pages in bounds whenever a
document is open, zoom always within `[0.5, 3.0]`. -/
def SessionInv (s : PDFViewerCore) : Prop :=
  (s.pdf_document = true → 1 ≤ s.current_page_num ∧ s.current_page_num ≤ s.total_pages) ∧
  1/2 ≤ s.zoom_level ∧ s.zoom_level ≤ 3

/-- Side conditions under which the session invariant is actually preserved:
successful loads install at least one page, and multiplicative zoom factors
are at least 1 (as in the gesture code, which always passes 1.1). -/
def Op.benign : Op → Bool
  | .loadOk _ n => 1 ≤ n
  | .zoomInByFactor f => 1 ≤ f
  | .zoomOutByFactor f => 1 ≤ f
  | _ => true

/-- The clamp function as the spec words it: constrain a value into
`[lo, hi]`. -/
def specClamp (x lo hi : ℚ) : ℚ :=
  max lo (min x hi)

/-- The three Qt touch event types handled by `PDFContentWidget.event`
(`widget.py` lines 20-24): `TouchBegin`, `TouchUpdate`, `TouchEnd`. -/
inductive TouchType where
  | touchBegin
  | touchUpdate
  | touchEnd
deriving Repr, DecidableEq

/-- A touch event as `handle_touch_event` consumes it: its type, the number
of touch points it carries (`len(event.touchPoints())`), and the Euclidean
distance between the first two points.  The Python code computes that
distance from the pixel coordinates with a real square root; the embedding
takes the distance itself as the event datum (it is meaningful only when
`pointCount = 2`, the only case in which the code reads the coordinates). -/
structure TouchEvent where
  touchType : TouchType
  pointCount : Nat
  distance : ℚ
deriving Repr, DecidableEq

/-- The gesture-tracking fields of `PDFContentWidget` (`widget.py`):
`initial_distance` is `some d` exactly when the Python object has the
`initial_distance` attribute (the code discriminates on `hasattr`),
`last_pinch_scale` mirrors `self.last_pinch_scale`. -/
structure PDFContentWidget where
  initial_distance : Option ℚ
  last_pinch_scale : ℚ
deriving Repr, DecidableEq

/-- Widget state as constructed by `PDFContentWidget.__init__`: no
`initial_distance` attribute yet, `last_pinch_scale = 1.0`. -/
def PDFContentWidget.init : PDFContentWidget :=
  { initial_distance := none, last_pinch_scale := 1 }

/-- The zoom commands the widget sends to its parent viewer.
`zoomInBy f` is a `parent_viewer.zoom_in_by_factor(f)` call (multiply zoom
by `f`); `zoomOutBy f` is `parent_viewer.zoom_out_by_factor(f)` (divide
zoom by `f`, i.e. multiply by `1/f`). -/
inductive Command where
  | zoomInBy (f : ℚ)
  | zoomOutBy (f : ℚ)
deriving Repr, DecidableEq

/-- `handle_touch_event` (`widget.py` lines 26-56).  Returns the updated
widget state, the list of zoom commands issued to the parent viewer, and
the handled flag (`true` for the two-point branch; `false` models falling
through to `super().event(event)`). -/
def handle_touch_event (w : PDFContentWidget) (ev : TouchEvent) :
    PDFContentWidget × List Command × Bool :=
  if ev.pointCount = 2 then
    let current_distance := ev.distance
    let step :=
      match w.initial_distance with
      | some d0 =>
          let scale_factor := current_distance / d0
          let zoom_delta := scale_factor - w.last_pinch_scale
          if 5/100 < |zoom_delta| then
            if 0 < zoom_delta then
              ({ w with last_pinch_scale := scale_factor }, [Command.zoomInBy (11/10)])
            else
              ({ w with last_pinch_scale := scale_factor }, [Command.zoomOutBy (11/10)])
          else
            (w, ([] : List Command))
      | none =>
          ({ initial_distance := some current_distance, last_pinch_scale := 1 },
           ([] : List Command))
    let final :=
      if ev.touchType = TouchType.touchEnd then
        { initial_distance := none, last_pinch_scale := 1 }
      else
        step.1
    (final, step.2, true)
  else
    (w, [], false)

/-- An open five-page document session, produced by a successful load from
the initial state; used to instantiate theorems with hypotheses. -/
def sampleOpen : PDFViewerCore :=
  (PDFViewerCore.init.load_pdf "doc.pdf" (some 5)).2

/-- Claim C2, as stated, is false: `zoom_in_by_factor` applies only the upper
bound (`min(zoom * factor, 3.0)`), so for the positive factor 1/4 from the
legal zoom 1.0 the result is 1/4, not the claimed
`clamp(zoom * factor, 0.5, 3.0) = 1/2`. -/
theorem C2_counterexample :
    0 < (1/4 : ℚ) ∧
    1/2 ≤ PDFViewerCore.init.zoom_level ∧ PDFViewerCore.init.zoom_level ≤ 3 ∧
    (PDFViewerCore.init.zoom_in_by_factor (1/4)).2.zoom_level ≠
      specClamp (PDFViewerCore.init.zoom_level * (1/4)) (1/2) 3 := by
  refine ⟨by norm_num, by norm_num [PDFViewerCore.init], by norm_num [PDFViewerCore.init], ?_⟩
  show min (PDFViewerCore.init.zoom_level * (1/4)) 3 ≠
    specClamp (PDFViewerCore.init.zoom_level * (1/4)) (1/2) 3
  norm_num [PDFViewerCore.init, specClamp, min_def, max_def]

/-- Claim C2 (amended): for every factor at least 1 and every starting zoom
in `[0.5, 3.0]`, `zoom_in_by_factor` sets zoom to
`clamp(zoom * factor, 0.5, 3.0)` and `zoom_out_by_factor` sets zoom to
`clamp(zoom / factor, 0.5, 3.0)`, and both always return success. -/
theorem C2_zoom_by_factor_clamp (s : PDFViewerCore) (f : ℚ) (hf : 1 ≤ f)
    (hlo : 1/2 ≤ s.zoom_level) (hhi : s.zoom_level ≤ 3) :
    (s.zoom_in_by_factor f).1 = true ∧
    (s.zoom_in_by_factor f).2.zoom_level = specClamp (s.zoom_level * f) (1/2) 3 ∧
    (s.zoom_out_by_factor f).1 = true ∧
    (s.zoom_out_by_factor f).2.zoom_level = specClamp (s.zoom_level / f) (1/2) 3 := by
  have hf0 : (0 : ℚ) < f := by linarith
  refine ⟨rfl, ?_, rfl, ?_⟩
  · have hz : (1/2 : ℚ) ≤ s.zoom_level * f := by nlinarith
    have h2 : (1/2 : ℚ) ≤ min (s.zoom_level * f) 3 := le_min hz (by norm_num)
    show min (s.zoom_level * f) 3 = specClamp (s.zoom_level * f) (1/2) 3
    rw [specClamp, max_eq_right h2]
  · have hdiv : s.zoom_level / f ≤ s.zoom_level := by
      rw [div_le_iff₀ hf0]; nlinarith
    show max (s.zoom_level / f) (1/2) = specClamp (s.zoom_level / f) (1/2) 3
    rw [specClamp, min_eq_left (le_trans hdiv hhi), max_comm]

/-- Closed instance of the amended claim C2 at zoom 1.0 and factor 1.1. -/
theorem C2_zoom_by_factor_clamp_witness :
    (PDFViewerCore.init.zoom_in_by_factor (11/10)).1 = true ∧
    (PDFViewerCore.init.zoom_in_by_factor (11/10)).2.zoom_level =
      specClamp (PDFViewerCore.init.zoom_level * (11/10)) (1/2) 3 ∧
    (PDFViewerCore.init.zoom_out_by_factor (11/10)).1 = true ∧
    (PDFViewerCore.init.zoom_out_by_factor (11/10)).2.zoom_level =
      specClamp (PDFViewerCore.init.zoom_level / (11/10)) (1/2) 3 :=
  C2_zoom_by_factor_clamp PDFViewerCore.init (11/10) (by norm_num)
    (by norm_num [PDFViewerCore.init]) (by norm_num [PDFViewerCore.init])

/-- Claim C3: a successful load of an `n`-page document sets
`pdf_document = true`, `total_pages = n`, `current_page_num = 1`,
`scroll_position = 0` (recording the path) and leaves every other field --
in particular `zoom_level` -- unchanged; a failed load resets the state to
the no-document defaults (`pdf_document = false`, `total_pages = 0`,
`current_page_num = 0`, `zoom_level = 1.0`, `scroll_position = 0`). -/
theorem C3_load_pdf_lifecycle (s : PDFViewerCore) (path : String) (n : Nat) :
    (s.load_pdf path (some n)).2 =
      { s with
        pdf_document := true
        current_pdf_path := some path
        total_pages := (n : Int)
        current_page_num := 1
        scroll_position := 0 } ∧
    (s.load_pdf path none).2 =
      { s with
        pdf_document := false
        current_pdf_path := none
        current_page_num := 0
        total_pages := 0
        zoom_level := 1
        scroll_position := 0
        page_height := 0 } :=
  ⟨rfl, rfl⟩

/-- Claim C4: with a document open, `go_to_page n` for `1 ≤ n ≤ total_pages`
succeeds (flag `true`, no message), sets `current_page_num = n` and
`scroll_position = 0`, and leaves every other field unchanged. -/
theorem C4_go_to_page_ok (s : PDFViewerCore) (n : Int) (hopen : s.pdf_document = true)
    (h1 : 1 ≤ n) (h2 : n ≤ s.total_pages) :
    s.go_to_page n =
      ((true, none), { s with current_page_num := n, scroll_position := 0 }) := by
  have hpos : 0 < s.total_pages := by omega
  simp [PDFViewerCore.go_to_page, hopen, hpos, h1, h2]

/-- Closed instance of claim C4 on the five-page sample document. -/
theorem C4_go_to_page_ok_witness :
    sampleOpen.go_to_page 3 =
      ((true, none), { sampleOpen with current_page_num := 3, scroll_position := 0 }) :=
  C4_go_to_page_ok sampleOpen 3 (by decide) (by decide) (by decide)

/-- Claim C5: whenever `n` is outside `[1, total_pages]`, or no document is
open, `go_to_page n` fails and returns the state entirely unchanged. -/
theorem C5_go_to_page_fail (s : PDFViewerCore) (n : Int)
    (h : n < 1 ∨ s.total_pages < n ∨ s.pdf_document = false) :
    (s.go_to_page n).1.1 = false ∧ (s.go_to_page n).2 = s := by
  unfold PDFViewerCore.go_to_page
  split_ifs with h1 h2
  · exfalso
    simp only [Bool.coe_iff_coe] at h1
    rcases h with h | h | h
    · omega
    · omega
    · simp [h] at h1
  · exact ⟨rfl, rfl⟩
  · exact ⟨rfl, rfl⟩

/-- Closed instance of claim C5: page 7 of the five-page sample document is
rejected with the state unchanged. -/
theorem C5_go_to_page_fail_witness :
    (sampleOpen.go_to_page 7).1.1 = false ∧ (sampleOpen.go_to_page 7).2 = sampleOpen :=
  C5_go_to_page_fail sampleOpen 7 (Or.inr (Or.inl (by decide)))

/-- A `go_to_page` call with an open document and an in-range page number
takes the success branch. -/
lemma go_to_page_eq_ok (s : PDFViewerCore) (n : Int) (hopen : s.pdf_document = true)
    (h1 : 1 ≤ n) (h2 : n ≤ s.total_pages) :
    s.go_to_page n =
      ((true, none), { s with current_page_num := n, scroll_position := 0 }) := by
  have hpos : 0 < s.total_pages := by omega
  simp [PDFViewerCore.go_to_page, hopen, hpos, h1, h2]

/-- A `next_page` call strictly before the last page advances by one. -/
lemma next_page_eq_step (s : PDFViewerCore) (hopen : s.pdf_document = true)
    (h1 : 1 ≤ s.current_page_num) (hlt : s.current_page_num < s.total_pages) :
    s.next_page =
      ((true, none),
        { s with current_page_num := s.current_page_num + 1, scroll_position := 0 }) := by
  unfold PDFViewerCore.next_page
  rw [if_pos ⟨hopen, hlt⟩]
  exact go_to_page_eq_ok s _ hopen (by omega) (by omega)

/-- `go_to_page` preserves the session invariant unconditionally. -/
lemma sessionInv_go_to_page (s : PDFViewerCore) (n : Int) (hs : SessionInv s) :
    SessionInv (s.go_to_page n).2 := by
  obtain ⟨hpage, hzlo, hzhi⟩ := hs
  unfold PDFViewerCore.go_to_page
  split_ifs with h1 h2
  · exact ⟨fun _ => h2, hzlo, hzhi⟩
  · exact ⟨hpage, hzlo, hzhi⟩
  · exact ⟨hpage, hzlo, hzhi⟩

/-- Every benign operation preserves the session invariant. -/
lemma sessionInv_run (s : PDFViewerCore) (op : Op) (hs : SessionInv s)
    (hop : op.benign = true) : SessionInv (run s op) := by
  obtain ⟨hpage, hzlo, hzhi⟩ := hs
  cases op with
  | loadOk path n =>
      have hn : 1 ≤ n := by simpa [Op.benign] using hop
      exact ⟨fun _ => ⟨le_refl 1, (by exact_mod_cast hn : (1 : Int) ≤ (n : Int))⟩, hzlo, hzhi⟩
  | loadFail path =>
      exact ⟨fun h => absurd h Bool.false_ne_true,
        (by norm_num : (1 : ℚ)/2 ≤ 1), (by norm_num : (1 : ℚ) ≤ 3)⟩
  | goToPage n =>
      exact sessionInv_go_to_page s n ⟨hpage, hzlo, hzhi⟩
  | nextPage =>
      show SessionInv s.next_page.2
      unfold PDFViewerCore.next_page
      split_ifs with h1 h2
      · exact sessionInv_go_to_page s _ ⟨hpage, hzlo, hzhi⟩
      · exact ⟨hpage, hzlo, hzhi⟩
      · exact ⟨hpage, hzlo, hzhi⟩
  | prevPage =>
      show SessionInv s.prev_page.2
      unfold PDFViewerCore.prev_page
      split_ifs with h1 h2
      · exact sessionInv_go_to_page s _ ⟨hpage, hzlo, hzhi⟩
      · exact ⟨hpage, hzlo, hzhi⟩
      · exact ⟨hpage, hzlo, hzhi⟩
  | zoomIn =>
      exact ⟨hpage, le_min (by linarith) (by norm_num), min_le_right _ _⟩
  | zoomOut =>
      exact ⟨hpage, le_max_right _ _, max_le (by linarith) (by norm_num)⟩
  | zoomInByFactor f =>
      have hf : (1 : ℚ) ≤ f := by simpa [Op.benign] using hop
      exact ⟨hpage, le_min (by nlinarith) (by norm_num), min_le_right _ _⟩
  | zoomOutByFactor f =>
      have hf : (1 : ℚ) ≤ f := by simpa [Op.benign] using hop
      have hf0 : (0 : ℚ) < f := by linarith
      refine ⟨hpage, le_max_right _ _, max_le ?_ (by norm_num)⟩
      rw [div_le_iff₀ hf0]
      nlinarith
  | reset =>
      exact ⟨fun h => absurd h Bool.false_ne_true,
        (by norm_num : (1 : ℚ)/2 ≤ 1), (by norm_num : (1 : ℚ) ≤ 3)⟩

/-- The session invariant is inductive along any benign operation sequence. -/
lemma sessionInv_runAll (ops : List Op) (hops : ∀ op ∈ ops, op.benign = true)
    (s : PDFViewerCore) (hs : SessionInv s) : SessionInv (runAll s ops) := by
  induction ops generalizing s with
  | nil => exact hs
  | cons op rest ih =>
      exact ih (fun o ho => hops o (List.mem_cons_of_mem _ ho)) (run s op)
        (sessionInv_run s op hs (hops op (List.mem_cons_self _ _)))

/-- Claim C1, as stated, is false on two counts: a successful load of a
0-page document yields an open session with `current_page_num = 1` above
`total_pages = 0`, and the positive multiplicative factor 1/4 drives the
zoom to 1/4, below the claimed lower bound 0.5. -/
theorem C1_counterexample :
    (runAll PDFViewerCore.init [Op.loadOk "empty.pdf" 0]).pdf_document = true ∧
    ¬ (1 ≤ (runAll PDFViewerCore.init [Op.loadOk "empty.pdf" 0]).current_page_num ∧
       (runAll PDFViewerCore.init [Op.loadOk "empty.pdf" 0]).current_page_num ≤
         (runAll PDFViewerCore.init [Op.loadOk "empty.pdf" 0]).total_pages) ∧
    0 < (1/4 : ℚ) ∧
    (runAll PDFViewerCore.init [Op.zoomInByFactor (1/4)]).zoom_level < 1/2 := by
  refine ⟨rfl, by decide, by norm_num, ?_⟩
  show min (PDFViewerCore.init.zoom_level * (1/4)) 3 < 1/2
  norm_num [PDFViewerCore.init, min_def]

/-- Claim C1 (amended): along every operation sequence from the initial
state in which each successful load installs at least one page and each
multiplicative zoom factor is at least 1 (the repository only ever passes
1.1), every reachable state satisfies the session invariant: pages in
bounds whenever a document is open, and zoom within `[0.5, 3.0]`. -/
theorem C1_session_invariant (ops : List Op) (hops : ∀ op ∈ ops, op.benign = true) :
    SessionInv (runAll PDFViewerCore.init ops) :=
  sessionInv_runAll ops hops PDFViewerCore.init
    ⟨fun h => absurd h Bool.false_ne_true,
      (by norm_num : (1 : ℚ)/2 ≤ 1), (by norm_num : (1 : ℚ) ≤ 3)⟩

/-- Closed instance of the amended claim C1 along a load / page-turn / zoom
sequence. -/
theorem C1_session_invariant_witness :
    SessionInv (runAll PDFViewerCore.init
      [Op.loadOk "doc.pdf" 5, Op.nextPage, Op.zoomIn, Op.goToPage 3]) :=
  C1_session_invariant [Op.loadOk "doc.pdf" 5, Op.nextPage, Op.zoomIn, Op.goToPage 3]
    (by decide)

/-- Iterate `next_page` a given number of times, conjoining the success
flags of all the calls. -/
def iterNext (s : PDFViewerCore) : Nat → Bool × PDFViewerCore
  | 0 => (true, s)
  | k+1 =>
      let r := s.next_page
      let r2 := iterNext r.2 k
      (r.1.1 && r2.1, r2.2)

/-- Iterating `next_page` from `k` pages before the end succeeds throughout
and lands on the last page. -/
lemma iterNext_ok (k : Nat) :
    ∀ s : PDFViewerCore, s.pdf_document = true → 1 ≤ s.current_page_num →
      s.current_page_num + (k : Int) = s.total_pages →
      (iterNext s k).1 = true ∧
      (iterNext s k).2.pdf_document = true ∧
      (iterNext s k).2.current_page_num = s.total_pages ∧
      (iterNext s k).2.total_pages = s.total_pages := by
  induction k with
  | zero =>
      intro s hdoc h1 hk
      refine ⟨rfl, hdoc, ?_, rfl⟩
      show s.current_page_num = s.total_pages
      omega
  | succ k ih =>
      intro s hdoc h1 hk
      have hlt : s.current_page_num < s.total_pages := by omega
      have hstep := next_page_eq_step s hdoc h1 hlt
      have hih := ih { s with current_page_num := s.current_page_num + 1, scroll_position := 0 }
        hdoc (by omega : (1 : Int) ≤ s.current_page_num + 1)
        (by omega : s.current_page_num + 1 + (k : Int) = s.total_pages)
      show (s.next_page.1.1 && (iterNext s.next_page.2 k).1) = true ∧
        (iterNext s.next_page.2 k).2.pdf_document = true ∧
        (iterNext s.next_page.2 k).2.current_page_num = s.total_pages ∧
        (iterNext s.next_page.2 k).2.total_pages = s.total_pages
      rw [hstep]
      exact ⟨by simpa using hih.1, hih.2.1, hih.2.2.1, hih.2.2.2⟩

/-- Claim C6: with an open `N`-page document positioned on page 1, calling
`next_page` exactly `N - 1` times succeeds at every call and ends on page
`N`; one further call fails with the "already on last page" message and
leaves the state unchanged. -/
theorem C6_next_page_walk (s : PDFViewerCore) (N : Nat) (hopen : s.pdf_document = true)
    (hN : 1 ≤ N) (htot : s.total_pages = (N : Int)) (hcur : s.current_page_num = 1) :
    (iterNext s (N - 1)).1 = true ∧
    (iterNext s (N - 1)).2.current_page_num = (N : Int) ∧
    (iterNext s (N - 1)).2.next_page.1 =
      (false, some "You are already on the last page.") ∧
    (iterNext s (N - 1)).2.next_page.2 = (iterNext s (N - 1)).2 := by
  have hk : s.current_page_num + ((N - 1 : Nat) : Int) = s.total_pages := by omega
  obtain ⟨hf, hdoc, hcur2, htot2⟩ := iterNext_ok (N - 1) s hopen (by omega) hk
  have hnotlt : ¬ ((iterNext s (N - 1)).2.pdf_document = true ∧
      (iterNext s (N - 1)).2.current_page_num < (iterNext s (N - 1)).2.total_pages) := by
    rintro ⟨-, hlt⟩
    omega
  refine ⟨hf, by omega, ?_, ?_⟩
  · show ((iterNext s (N - 1)).2.next_page).1 = _
    unfold PDFViewerCore.next_page
    rw [if_neg hnotlt, if_pos hdoc]
  · show ((iterNext s (N - 1)).2.next_page).2 = _
    unfold PDFViewerCore.next_page
    rw [if_neg hnotlt, if_pos hdoc]

/-- Closed instance of claim C6 on the five-page sample document. -/
theorem C6_next_page_walk_witness :
    (iterNext sampleOpen 4).1 = true ∧
    (iterNext sampleOpen 4).2.current_page_num = (5 : Int) ∧
    (iterNext sampleOpen 4).2.next_page.1 =
      (false, some "You are already on the last page.") ∧
    (iterNext sampleOpen 4).2.next_page.2 = (iterNext sampleOpen 4).2 :=
  C6_next_page_walk sampleOpen 5 (by decide) (by decide) (by decide) (by decide)

/-- Claim C7, as stated, is false: a touch-end event whose point count has
dropped to 1 while a pinch is being tracked falls through to the default
handler, leaving `initial_distance` set (and `last_pinch_scale` unreset)
instead of clearing them. -/
theorem C7_counterexample :
    (handle_touch_event { initial_distance := some 100, last_pinch_scale := 6/5 }
        { touchType := TouchType.touchEnd, pointCount := 1, distance := 50 }).1 =
      { initial_distance := some 100, last_pinch_scale := 6/5 } ∧
    ({ initial_distance := some 100, last_pinch_scale := 6/5 } :
        PDFContentWidget).initial_distance ≠ none :=
  ⟨rfl, by simp⟩

/-- Claim C7 (amended): the gesture state is cleared (`initial_distance`
removed, `last_pinch_scale` reset to 1.0) exactly on a touch-end event that
still carries two touch points; any event whose point count is not 2 leaves
the translator state unchanged. -/
theorem C7_tracking_to_idle (w : PDFContentWidget) (ev : TouchEvent) :
    (ev.pointCount = 2 → ev.touchType = TouchType.touchEnd →
      (handle_touch_event w ev).1 =
        { initial_distance := none, last_pinch_scale := 1 }) ∧
    (ev.pointCount ≠ 2 → (handle_touch_event w ev).1 = w) := by
  constructor
  · intro h2 hend
    simp [handle_touch_event, h2, hend]
  · intro hne
    simp [handle_touch_event, hne]

/-- Closed instance of the amended claim C7: a two-point touch-end clears
the tracking state. -/
theorem C7_tracking_to_idle_witness :
    (handle_touch_event { initial_distance := some 100, last_pinch_scale := 11/10 }
        { touchType := TouchType.touchEnd, pointCount := 2, distance := 105 }).1 =
      { initial_distance := none, last_pinch_scale := 1 } :=
  (C7_tracking_to_idle
    { initial_distance := some 100, last_pinch_scale := 11/10 }
    { touchType := TouchType.touchEnd, pointCount := 2, distance := 105 }).1 rfl rfl

/-- Claim C8: on a two-point touch update while tracking a pinch begun at
distance `d0`, with `scaleFactor = distance / d0` and
`delta = scaleFactor - last_pinch_scale`: if `|delta| ≤ 0.05` nothing is
emitted and the state is unchanged; if `delta > 0.05` exactly one
zoom-in-by-1.1 command is emitted; if `delta < -0.05` exactly one
zoom-out-by-1.1 command (factor 1/1.1) is emitted; in the latter two cases
`last_pinch_scale` becomes `scaleFactor`. -/
theorem C8_pinch_update (w : PDFContentWidget) (ev : TouchEvent) (d0 : ℚ)
    (htrack : w.initial_distance = some d0) (hd0 : 0 < d0)
    (hpc : ev.pointCount = 2) (hty : ev.touchType = TouchType.touchUpdate) :
    (|ev.distance / d0 - w.last_pinch_scale| ≤ 5/100 →
      handle_touch_event w ev = (w, [], true)) ∧
    (5/100 < ev.distance / d0 - w.last_pinch_scale →
      handle_touch_event w ev =
        ({ w with last_pinch_scale := ev.distance / d0 },
         [Command.zoomInBy (11/10)], true)) ∧
    (ev.distance / d0 - w.last_pinch_scale < -(5/100) →
      handle_touch_event w ev =
        ({ w with last_pinch_scale := ev.distance / d0 },
         [Command.zoomOutBy (11/10)], true)) := by
  refine ⟨fun h => ?_, fun h => ?_, fun h => ?_⟩
  · have hnot : ¬ (5/100 < |ev.distance / d0 - w.last_pinch_scale|) := not_lt.mpr h
    simp [handle_touch_event, hpc, htrack, hty, hnot]
  · have hgt : 5/100 < |ev.distance / d0 - w.last_pinch_scale| :=
      lt_of_lt_of_le h (le_abs_self _)
    have hpos2 : 0 < ev.distance / d0 - w.last_pinch_scale := by linarith
    simp [handle_touch_event, hpc, htrack, hty, hgt, hpos2]
  · have hgt : 5/100 < |ev.distance / d0 - w.last_pinch_scale| :=
      lt_of_lt_of_le (by linarith) (neg_le_abs _)
    have hneg : ¬ 0 < ev.distance / d0 - w.last_pinch_scale := by linarith
    simp [handle_touch_event, hpc, htrack, hty, hgt, hneg]

/-- Closed instance of claim C8 on the spec's own example: from initial
distance 100 and `last_pinch_scale = 1.0`, a move to distance 112 (ratio
1.12, delta 0.12) emits exactly one zoom-in-by-1.1 command. -/
theorem C8_pinch_update_witness :
    handle_touch_event { initial_distance := some 100, last_pinch_scale := 1 }
        { touchType := TouchType.touchUpdate, pointCount := 2, distance := 112 } =
      ({ initial_distance := some 100, last_pinch_scale := (112 : ℚ)/100 },
       [Command.zoomInBy (11/10)], true) :=
  (C8_pinch_update
    { initial_distance := some 100, last_pinch_scale := 1 }
    { touchType := TouchType.touchUpdate, pointCount := 2, distance := 112 }
    100 rfl (by norm_num) rfl rfl).2.1 (by norm_num)

/-- Claim C9: from a starting zoom strictly inside `(0.5, 3.0)` such that
neither step is clamped, `zoom_in_by_factor 1.1` followed by
`zoom_out_by_factor 1.1` restores the zoom exactly (in the exact rational
model of the float arithmetic). -/
theorem C9_zoom_round_trip (s : PDFViewerCore) (hlo : 1/2 < s.zoom_level)
    (hhi : s.zoom_level < 3) (hc1 : s.zoom_level * (11/10) ≤ 3)
    (hc2 : 1/2 ≤ s.zoom_level * (11/10) / (11/10)) :
    ((s.zoom_in_by_factor (11/10)).2.zoom_out_by_factor (11/10)).2.zoom_level =
      s.zoom_level := by
  show max (min (s.zoom_level * (11/10)) 3 / (11/10)) (1/2) = s.zoom_level
  rw [min_eq_left hc1, mul_div_cancel_right₀ _ (by norm_num : (11/10 : ℚ) ≠ 0),
    max_eq_left (le_of_lt hlo)]

/-- Closed instance of claim C9 at zoom 1.0. -/
theorem C9_zoom_round_trip_witness :
    ((PDFViewerCore.init.zoom_in_by_factor (11/10)).2.zoom_out_by_factor (11/10)).2.zoom_level =
      PDFViewerCore.init.zoom_level :=
  C9_zoom_round_trip PDFViewerCore.init
    (by norm_num [PDFViewerCore.init]) (by norm_num [PDFViewerCore.init])
    (by norm_num [PDFViewerCore.init]) (by norm_num [PDFViewerCore.init])

/-- A concrete stand-in for the external renderer, used to instantiate
theorems quantified over it. -/
def sampleRender : Int → ℚ → Pixmap :=
  fun _ _ => { width := 612, height := 792 }

/-- Claim C10: `get_page_pixmap` returns `none` whenever no document is
loaded or the requested (or defaulted) page number is outside
`[1, total_pages]`, and in every case it leaves the navigation state
(`current_page_num`, `total_pages`, `zoom_level`, `scroll_position`)
unchanged; only `page_height` may change. -/
theorem C10_get_page_pixmap_safe (s : PDFViewerCore) (render : Int → ℚ → Pixmap)
    (page_num : Option Int) :
    (s.pdf_document = false ∨ page_num.getD s.current_page_num < 1 ∨
        s.total_pages < page_num.getD s.current_page_num →
      (s.get_page_pixmap render page_num).1 = none) ∧
    ((s.get_page_pixmap render page_num).2.current_page_num = s.current_page_num ∧
     (s.get_page_pixmap render page_num).2.total_pages = s.total_pages ∧
     (s.get_page_pixmap render page_num).2.zoom_level = s.zoom_level ∧
     (s.get_page_pixmap render page_num).2.scroll_position = s.scroll_position) := by
  unfold PDFViewerCore.get_page_pixmap
  by_cases h1 : s.pdf_document = false
  · rw [if_pos h1]
    exact ⟨fun _ => rfl, rfl, rfl, rfl, rfl⟩
  · rw [if_neg h1]
    dsimp only
    split_ifs with h2
    · refine ⟨fun h => ?_, rfl, rfl, rfl, rfl⟩
      exfalso
      rcases h with h | h | h
      · exact h1 h
      · omega
      · omega
    · exact ⟨fun _ => rfl, rfl, rfl, rfl, rfl⟩

/-- Closed instance of claim C10: with no document loaded, requesting page 3
yields no pixmap and the navigation state is untouched. -/
theorem C10_get_page_pixmap_safe_witness :
    (PDFViewerCore.init.get_page_pixmap sampleRender (some 3)).1 = none ∧
    ((PDFViewerCore.init.get_page_pixmap sampleRender (some 3)).2.current_page_num =
        PDFViewerCore.init.current_page_num ∧
     (PDFViewerCore.init.get_page_pixmap sampleRender (some 3)).2.total_pages =
        PDFViewerCore.init.total_pages ∧
     (PDFViewerCore.init.get_page_pixmap sampleRender (some 3)).2.zoom_level =
        PDFViewerCore.init.zoom_level ∧
     (PDFViewerCore.init.get_page_pixmap sampleRender (some 3)).2.scroll_position =
        PDFViewerCore.init.scroll_position) :=
  ⟨(C10_get_page_pixmap_safe PDFViewerCore.init sampleRender (some 3)).1 (Or.inl rfl),
   (C10_get_page_pixmap_safe PDFViewerCore.init sampleRender (some 3)).2⟩

end Preview
